import Mathlib

/-!
Shallow embedding of the windowing engine of the `taro-react-virtual-list`
component: the segmenter (`getSegmentList` in `utils/virtualList`), the
per-segment state (`ISubPage` records, render/placeholder variants of the
render list), the position calculator (`getItemScrollTop` in
`hooks/useVirtualList.ts`), the navigator (`scrollTo`, `scrollIntoView`)
and the watcher-installation state machine of `createIntersectionObserver`.

Pixel quantities reported by the platform's geometry queries are modelled
as rationals; JavaScript's `x || y` fallback on numbers (which replaces a
zero with the fallback) is modelled by `jsOr`.
-/

/-- JavaScript `x || y` for a numeric `x`: yields `y` when `x` is `0`
(the only falsy rational). -/
def jsOr (x fallback : ℚ) : ℚ :=
  if x = 0 then fallback else x

/-- Segmenter `getSegmentList(list, segmentNum)` from `utils/virtualList`:
`[]` for an empty list, one segment holding the whole list for a
non-positive size (`0` being the sole non-positive natural), otherwise
`ceil(length / segmentNum)` contiguous slices, the `i`-th being
`list.slice(i*segmentNum, min((i+1)*segmentNum, length))`, which for
`i < totalPages` equals taking `segmentNum` items after dropping
`i * segmentNum`. -/
def getSegmentList {α : Type} (list : List α) (segmentNum : ℕ) : List (List α) :=
  if list.length = 0 then []
  else if segmentNum = 0 then [list]
  else
    let totalPages := (list.length + segmentNum - 1) / segmentNum
    (List.range totalPages).map fun i => (list.drop (i * segmentNum)).take segmentNum

/-- The `segmentNum` option: an explicit per-segment item count or the
string `"smart"`. -/
inductive SegmentNumType where
  | smart : SegmentNumType
  | num (n : ℕ) : SegmentNumType
deriving DecidableEq

/-- Resolution of the `segmentNum` option performed by `createSegmentList`
(`useVirtualList.ts` line 67):
`segmentNum === 'smart' ? Math.max(10, Math.floor(Math.sqrt(list.length))) : segmentNum`.
`Nat.sqrt` is the floor of the real square root (proved in the theorem for
claim C5). -/
def resolveSegmentNum (segmentNum : SegmentNumType) (len : ℕ) : ℕ :=
  match segmentNum with
  | .smart => max 10 (Nat.sqrt len)
  | .num n => n

/-- `createSegmentList` (`useVirtualList.ts` lines 66-69): resolves the
segment size and hands the list to the `getSegmentNum` callback, whose
default is `getSegmentList`. -/
def createSegmentList {α : Type} (list : List α) (segmentNum : SegmentNumType)
    (getSegmentNum : List α → ℕ → List (List α)) : List (List α) :=
  getSegmentNum list (resolveSegmentNum segmentNum list.length)

/-- Per-segment record `ISubPage` from `types` : measured-or-estimated
segment height, whether the segment has ever rendered, measured per-item
heights (possibly shorter than the segment) and the segment's item count. -/
structure ISubPage where
  rendered : Bool
  height : ℚ
  items : List ℚ
  length : ℕ
deriving DecidableEq

/-- An entry of the render list (`VirtualListSegment<T> = T[] | { height }`):
either the real item slice or a height-only placeholder. The
`Array.isArray` test in the source distinguishes the two. -/
inductive VirtualListSegment (α : Type) where
  | real (items : List α)
  | placeholder (height : ℚ)
deriving DecidableEq

/-- Result record of `getItemScrollTop` (`IItemScrollTop` in `types`).
`pageIndex` is an integer because the source computes
`Math.min(segIdx, renderList.length - 1)`. -/
structure IItemScrollTop where
  height : ℚ
  scrollTop : ℚ
  rendered : Bool
  pageIndex : ℤ
deriving DecidableEq

/-- The mutable state of one engine instance that the position calculator
reads: the render list (`renderListRef`), the segment table
(`segmentListRef`), the per-page records (`subPageMapRef`, a partial map),
the measured header height (`headerHeightRef`), the configured
`guessItemHeight` and the `isCompleted` flag. -/
structure EngineState (α : Type) where
  renderList : List (VirtualListSegment α)
  segmentList : List (List α)
  subPageMap : ℕ → Option ISubPage
  headerHeight : ℚ
  guessItemHeight : ℚ
  isCompleted : Bool

/-- Height a page before the target adds to the accumulator in
`getItemScrollTop` (lines 391-399): a rendered page contributes
`subPageMap.get(pageIdx)?.height || pageLength * guessItemHeight`, a
placeholder contributes its stored height. -/
def skipContribution {α : Type} (m : ℕ → Option ISubPage) (guess : ℚ) :
    VirtualListSegment α → ℕ → ℕ → ℚ
  | .real _, pageIdx, pageLength =>
    match m pageIdx with
    | some pageData => jsOr pageData.height ((pageLength : ℚ) * guess)
    | none => (pageLength : ℚ) * guess
  | .placeholder h, _, _ => h

/-- Height reported for the target item in `getItemScrollTop`
(lines 405-423): `pageData.items[pos] || guessItemHeight` when the page is
rendered and measured up to `pos`, else the guess. -/
def landHeight {α : Type} (page : VirtualListSegment α) (pageData? : Option ISubPage)
    (guess : ℚ) (pos : ℕ) : ℚ :=
  match page with
  | .real _ =>
    match pageData? with
    | some pageData =>
      if pos < pageData.items.length then jsOr (pageData.items.getD pos 0) guess else guess
    | none => guess
  | .placeholder _ => guess

/-- In-page offset added for the target item in `getItemScrollTop`
(lines 405-423): the sum of the measured heights before `pos` when the
page is rendered and measured up to `pos`, else `guessItemHeight * pos`. -/
def landOffset {α : Type} (page : VirtualListSegment α) (pageData? : Option ISubPage)
    (guess : ℚ) (pos : ℕ) : ℚ :=
  match page with
  | .real _ =>
    match pageData? with
    | some pageData =>
      if pos < pageData.items.length then (pageData.items.take pos).sum else guess * pos
    | none => guess * pos
  | .placeholder _ => guess * pos

/-- Rendered flag of the target page in `getItemScrollTop`: `true` on a
rendered page (even when the exact item fell back to the estimate,
lines 410 and 415), `false` on a placeholder (line 421). -/
def landRendered {α : Type} (page : VirtualListSegment α) : Bool :=
  match page with
  | .real _ => true
  | .placeholder _ => false

/-- The page walk of `getItemScrollTop` (lines 379-426): pages are scanned
in order; the loop breaks when the segment table runs out (`!segmentData`),
skips pages wholly before the target accumulating their height, and stops
on the page containing the target. The JS guard
`curIdx + pageLength - 1 < index` over integers is exactly
`curIdx + pageLength ≤ index`. Returns
`(height, scrollTop, rendered, segIdx)`. -/
def getItemScrollTopLoop {α : Type} (guess : ℚ) (m : ℕ → Option ISubPage) (index : ℕ) :
    List (VirtualListSegment α) → List (List α) → ℕ → ℕ → ℚ → ℕ →
    ℚ × ℚ × Bool × ℕ
  | [], _, _, _, scrollTop, segIdx => (0, scrollTop, false, segIdx)
  | _ :: _, [], _, _, scrollTop, segIdx => (0, scrollTop, false, segIdx)
  | page :: restPages, segmentData :: restSegs, pageIdx, curIdx, scrollTop, segIdx =>
    let pageLength := segmentData.length
    if curIdx + pageLength ≤ index then
      getItemScrollTopLoop guess m index restPages restSegs (pageIdx + 1)
        (curIdx + pageLength)
        (scrollTop + skipContribution m guess page pageIdx pageLength) (segIdx + 1)
    else
      let pos := index - curIdx
      (landHeight page (m pageIdx) guess pos,
       scrollTop + landOffset page (m pageIdx) guess pos,
       landRendered page, segIdx)

/-- `getItemScrollTop` (`useVirtualList.ts` lines 363-436): a negative
index returns the fixed record `{height: 0, scrollTop: 0, rendered: false,
pageIndex: 0}`; otherwise the walk starts from the header height and the
final `pageIndex` is `min(segIdx, renderList.length - 1)`. -/
def getItemScrollTop {α : Type} (s : EngineState α) (index : ℤ) : IItemScrollTop :=
  if index < 0 then ⟨0, 0, false, 0⟩
  else
    let r := getItemScrollTopLoop s.guessItemHeight s.subPageMap index.toNat
      s.renderList s.segmentList 0 0 s.headerHeight 0
    ⟨r.1, r.2.1, r.2.2.1, min (r.2.2.2 : ℤ) ((s.renderList.length : ℤ) - 1)⟩

/-- Number of items in the first `p` segments: the value of `curIdx` when
the walk of `getItemScrollTop` arrives at page `p`. -/
def segPrefixLen {α : Type} (segs : List (List α)) (p : ℕ) : ℕ :=
  ((segs.take p).map List.length).sum

/-- Effective height of the item at in-page position `pos`, as the walk
adds it to the offset of later items in the same page: the measured height
when the page is rendered and the record covers `pos`, else the guess. -/
def effItemHeight {α : Type} (page : VirtualListSegment α) (pageData? : Option ISubPage)
    (guess : ℚ) (pos : ℕ) : ℚ :=
  match page with
  | .real _ =>
    match pageData? with
    | some pageData => if pos < pageData.items.length then pageData.items.getD pos 0 else guess
    | none => guess
  | .placeholder _ => guess

/-- Coverage condition on the containing page's record: the measured item
list either does not extend beyond the earlier in-page position or covers
the later one, so the walk prices both positions from the same source. -/
def coverOK {α : Type} (page : VirtualListSegment α) (pageData? : Option ISubPage)
    (posI posJ : ℕ) : Prop :=
  match page, pageData? with
  | VirtualListSegment.real _, some pageData =>
    pageData.items.length ≤ posI ∨ posJ < pageData.items.length
  | _, _ => True

/-- Initial render list built by `initRenderList` (lines 293-305): the
first page holds its real items, every other page is a placeholder of
height `segment length × guessItemHeight`. -/
def initRenderListSegments {α : Type} (segs : List (List α)) (guess : ℚ) :
    List (VirtualListSegment α) :=
  (List.range segs.length).map fun i =>
    if i = 0 then VirtualListSegment.real (segs.getD i [])
    else VirtualListSegment.placeholder (((segs.getD i []).length : ℚ) * guess)

/-- Height given to the placeholder when the observer callback hides a
segment (lines 215-217):
`subPageMap.get(index)?.height || guessItemHeight * (segmentList[index]?.length || 0)`. -/
def observerPlaceholderHeight {α : Type} (s : EngineState α) (index : ℕ) : ℚ :=
  match s.subPageMap index with
  | some pageData =>
    jsOr pageData.height (s.guessItemHeight * ((s.segmentList.getD index []).length : ℚ))
  | none => s.guessItemHeight * ((s.segmentList.getD index []).length : ℚ)

/-- Observer callback, leave branch (lines 209-223): when the overlap
signal is at or below the threshold and the entry currently holds real
content, it is replaced by a placeholder carrying the best known height;
otherwise the render list is unchanged. -/
def swapToPlaceholder {α : Type} (s : EngineState α) (index : ℕ) : EngineState α :=
  match s.renderList[index]? with
  | some (.real _) =>
    { s with renderList :=
        s.renderList.set index (.placeholder (observerPlaceholderHeight s index)) }
  | _ => s

/-- Observer callback, enter branch (lines 224-235): when the overlap
signal is above the threshold and the entry currently holds a placeholder,
it is replaced by the real slice `segmentList[index] || []`; otherwise the
render list is unchanged. -/
def swapToRendered {α : Type} (s : EngineState α) (index : ℕ) : EngineState α :=
  match s.renderList[index]? with
  | some (.placeholder _) =>
    { s with renderList :=
        s.renderList.set index (.real (s.segmentList.getD index [])) }
  | _ => s

/-- Snapshot returned by `QueryUtils.getScrollViewInfo`: viewport height,
content height and current scroll offset. -/
structure ScrollViewInfo where
  height : ℚ
  scrollHeight : ℚ
  scrollTop : ℚ
deriving DecidableEq

/-- Selectors handed to the query collaborator, keyed by their arguments
(`SelectorUtils` builds strings such as `#vl-item-p-i`). -/
inductive Selector where
  | item (pageIndex : ℕ) (itemIndex : ℤ)
  | page (index : ℕ)
deriving DecidableEq

/-- Scroll commands issued to the scroll container: an exact
scroll-to-element (via `QueryUtils.scrollToElement`) or a direct jump to a
pixel offset (via `scrollViewNode.scrollTo`). -/
inductive ScrollAction where
  | scrollToElement (sel : Selector) (offsetTop : ℚ)
  | scrollToOffset (top : ℚ)
deriving DecidableEq

/-- One fixed behaviour of the external collaborators during a navigation:
`scrollViewInfo` may reject (the query can fail after its retries);
`checkElementExists` always resolves a boolean (its internal timeout
resolves `false`); element presence may change after the estimate jump,
hence the separate post-jump answers; `scrollViewNodeAvailable` tells
whether `getScrollViewNode` yields a node with a `scrollTo` method. -/
structure QueryOracle where
  scrollViewInfo : Except Unit ScrollViewInfo
  elementExists : Selector → Bool
  elementExistsAfterJump : Selector → Bool
  scrollToElementOk : Selector → Bool
  scrollToElementAfterJumpOk : Selector → Bool
  scrollViewNodeAvailable : Bool

/-- Page search of `scrollTo` (lines 597-609): scans the segment table
accumulating item counts; breaks at the first page with
`currentCount + pageLength > index`. `none` when the loop never breaks. -/
def findPageLoop {α : Type} (index : ℤ) : List (List α) → ℕ → ℤ → Option (ℕ × ℤ)
  | [], _, _ => none
  | seg :: rest, i, currentCount =>
    if index < currentCount + seg.length then some (i, index - currentCount)
    else findPageLoop index rest (i + 1) (currentCount + seg.length)

/-- Page and in-page index of a target item as `scrollTo` computes them;
when the scan never breaks the initial values `(0, index)` survive. -/
def findPage {α : Type} (segs : List (List α)) (index : ℤ) : ℕ × ℤ :=
  (findPageLoop index segs 0 0).getD (0, index)

/-- `calculateEstimatedScrollTop` (lines 557-588): the located offset when
the target already reports rendered, otherwise header height plus the
recorded heights of the pages before the target plus
`itemIndexInPage * guessItemHeight`. -/
def calculateEstimatedScrollTop {α : Type} (s : EngineState α) (index : ℤ)
    (pageIndex : ℕ) (itemIndexInPage : ℤ) : ℚ :=
  let scrollInfo := getItemScrollTop s index
  if scrollInfo.rendered then scrollInfo.scrollTop
  else
    ((List.range pageIndex).map fun i =>
      match s.subPageMap i with
      | some pageData =>
        jsOr pageData.height (((s.segmentList.getD i []).length : ℚ) * s.guessItemHeight)
      | none => ((s.segmentList.getD i []).length : ℚ) * s.guessItemHeight).sum
    + (itemIndexInPage : ℚ) * s.guessItemHeight + s.headerHeight

/-- Body of `scrollTo` inside its `try` (lines 595-656): exact
scroll-to-element when the target element already exists; otherwise an
unanimated jump to the clamped estimate followed by an optional exact
refinement. Collaborator rejections surface as `Except.error`. Returns the
reported success and the scroll commands issued. -/
def scrollToBody {α : Type} (o : QueryOracle) (s : EngineState α) (index : ℤ)
    (offsetTop : ℚ) : Except Unit (Bool × List ScrollAction) :=
  let fp := findPage s.segmentList index
  let itemSelector := Selector.item fp.1 fp.2
  if o.elementExists itemSelector then
    if o.scrollToElementOk itemSelector then
      .ok (true, [ScrollAction.scrollToElement itemSelector offsetTop])
    else
      .ok (false, [])
  else
    let estimatedScrollTop := calculateEstimatedScrollTop s index fp.1 fp.2
    if 0 ≤ estimatedScrollTop then
      match o.scrollViewInfo with
      | .error e => .error e
      | .ok vlInfo =>
        if o.scrollViewNodeAvailable then
          let jump := ScrollAction.scrollToOffset
            (min (max (estimatedScrollTop - offsetTop) 0) vlInfo.scrollHeight)
          if o.elementExistsAfterJump itemSelector then
            if o.scrollToElementAfterJumpOk itemSelector then
              .ok (true, [jump, ScrollAction.scrollToElement itemSelector offsetTop])
            else
              .ok (false, [jump])
          else
            .ok (true, [jump])
        else
          .ok (false, [])
    else
      .ok (false, [])

/-- `scrollTo` (lines 591-665): `false` before initialization completes;
the body runs inside `try`/`catch`, any rejection becoming the boolean
result `false`. -/
def scrollTo {α : Type} (o : QueryOracle) (s : EngineState α) (index : ℤ)
    (offsetTop : ℚ) : Bool × List ScrollAction :=
  if s.isCompleted = false then (false, [])
  else
    match scrollToBody o s index offsetTop with
    | .ok r => r
    | .error _ => (false, [])

/-- Body of `scrollIntoView` inside its `try` (lines 670-682): reads the
current scroll snapshot, locates the target and, when the target's span is
fully inside the viewport, succeeds without touching the scroll container;
otherwise delegates to `scrollTo`. -/
def scrollIntoViewBody {α : Type} (o : QueryOracle) (s : EngineState α) (index : ℤ)
    (offsetTop : ℚ) : Except Unit (Bool × List ScrollAction) :=
  match o.scrollViewInfo with
  | .error e => .error e
  | .ok info =>
    let t := getItemScrollTop s index
    if info.scrollTop ≤ t.scrollTop ∧ t.scrollTop + t.height ≤ info.scrollTop + info.height then
      .ok (true, [])
    else
      .ok (scrollTo o s index offsetTop)

/-- `scrollIntoView` (lines 668-691): the body runs inside `try`/`catch`,
any rejection becoming the boolean result `false`. -/
def scrollIntoView {α : Type} (o : QueryOracle) (s : EngineState α) (index : ℤ)
    (offsetTop : ℚ) : Bool × List ScrollAction :=
  match scrollIntoViewBody o s index offsetTop with
  | .ok r => r
  | .error _ => (false, [])

/-- Lemmas and theorems below refer to a fixed small counterexample and
scenario; their states are built here so the statements stay closed. -/
def cexState : EngineState ℕ :=
  { renderList := [VirtualListSegment.real [0, 1, 2]]
    segmentList := [[0, 1, 2]]
    subPageMap := fun i =>
      if i = 0 then some { rendered := true, height := 2000, items := [1000, 1000], length := 3 }
      else none
    headerHeight := 0
    guessItemHeight := 50
    isCompleted := true }

/-- A 10,000-item collection for the C3 scenario. -/
def scenarioList : List ℕ := List.range 10000

/-- Segment table of the scenario: smart sizing with the default
segmenter. -/
def scenarioSegments : List (List ℕ) :=
  createSegmentList scenarioList SegmentNumType.smart getSegmentList

/-- Engine state of the C3 scenario: freshly initialized render list,
no measurement recorded yet, header height `0`, guess height `50`. -/
def scenarioState : EngineState ℕ :=
  { renderList := initRenderListSegments scenarioSegments 50
    segmentList := scenarioSegments
    subPageMap := fun _ => none
    headerHeight := 0
    guessItemHeight := 50
    isCompleted := true }

/-- Phase of one in-flight `createIntersectionObserver(index, retryCount)`
invocation: `start` before the duplicate-install guard runs, `checking`
after the segment was marked as creating and while the element-presence
query is awaited, `scheduled` while the retry timer set by
`setTimeout` is pending. -/
inductive InstallPhase where
  | start : InstallPhase
  | checking : InstallPhase
  | scheduled : InstallPhase
deriving DecidableEq

/-- One in-flight watcher-installation continuation. -/
structure InstallTask where
  index : ℕ
  retryCount : ℕ
  phase : InstallPhase
deriving DecidableEq

/-- Watcher bookkeeping of the engine: the installed observers
(`observersRef`, keyed by segment index), the pending-creation set
(`observerCreatingRef`) and the in-flight installation continuations. -/
structure ObsState where
  observers : Finset ℕ
  creating : Finset ℕ
  tasks : List InstallTask

/-- Synchronous prologue of `createIntersectionObserver` (lines 147-159):
a request for a segment already installed or already being created
returns unchanged (`false`: no continuation started), as does an index
outside the segment table; otherwise the segment is marked as creating
and the asynchronous element check begins (`true`). -/
def runInstallStart (segCount : ℕ) (observers creating : Finset ℕ) (index : ℕ) :
    (Finset ℕ × Finset ℕ) × Bool :=
  if index ∈ observers ∨ index ∈ creating then ((observers, creating), false)
  else if segCount ≤ index then ((observers, creating), false)
  else ((observers, insert index creating), true)

/-- Step relation of the watcher-installation machine, one constructor per
synchronous turn between the asynchronous boundaries of
`createIntersectionObserver` (element check, retry timer, observer
creation) plus request spawning by callers and `clearObservers`. The
element-presence outcome is nondeterministic, so every interleaving of the
source is covered. -/
inductive ObsStep (segCount : ℕ) : ObsState → ObsState → Prop where
  | spawn (s : ObsState) (index : ℕ) :
      ObsStep segCount s ⟨s.observers, s.creating, ⟨index, 0, .start⟩ :: s.tasks⟩
  | runStart (obs cr : Finset ℕ) (l1 l2 : List InstallTask) (index retry : ℕ) :
      ObsStep segCount ⟨obs, cr, l1 ++ ⟨index, retry, .start⟩ :: l2⟩
        ⟨(runInstallStart segCount obs cr index).1.1,
         (runInstallStart segCount obs cr index).1.2,
         if (runInstallStart segCount obs cr index).2 then
           l1 ++ ⟨index, retry, .checking⟩ :: l2
         else l1 ++ l2⟩
  | checkAbsentRetry (obs cr : Finset ℕ) (l1 l2 : List InstallTask) (index retry : ℕ)
      (hr : retry < 3) :
      ObsStep segCount ⟨obs, cr, l1 ++ ⟨index, retry, .checking⟩ :: l2⟩
        ⟨obs, cr.erase index, l1 ++ ⟨index, retry + 1, .scheduled⟩ :: l2⟩
  | checkAbsentGiveUp (obs cr : Finset ℕ) (l1 l2 : List InstallTask) (index retry : ℕ)
      (hr : 3 ≤ retry) :
      ObsStep segCount ⟨obs, cr, l1 ++ ⟨index, retry, .checking⟩ :: l2⟩
        ⟨obs, cr.erase index, l1 ++ l2⟩
  | observeOk (obs cr : Finset ℕ) (l1 l2 : List InstallTask) (index retry : ℕ) :
      ObsStep segCount ⟨obs, cr, l1 ++ ⟨index, retry, .checking⟩ :: l2⟩
        ⟨insert index obs, cr.erase index, l1 ++ l2⟩
  | observeErr (obs cr : Finset ℕ) (l1 l2 : List InstallTask) (index retry : ℕ) :
      ObsStep segCount ⟨obs, cr, l1 ++ ⟨index, retry, .checking⟩ :: l2⟩
        ⟨obs, cr.erase index, l1 ++ l2⟩
  | timerFire (obs cr : Finset ℕ) (l1 l2 : List InstallTask) (index retry : ℕ) :
      ObsStep segCount ⟨obs, cr, l1 ++ ⟨index, retry, .scheduled⟩ :: l2⟩
        ⟨obs, cr, l1 ++ ⟨index, retry, .start⟩ :: l2⟩
  | clear (s : ObsState) :
      ObsStep segCount s ⟨∅, ∅, s.tasks⟩

/-- States reachable from the engine's fresh watcher bookkeeping (empty
sets, no in-flight work) by the step relation. -/
inductive ObsReachable (segCount : ℕ) : ObsState → Prop where
  | init : ObsReachable segCount ⟨∅, ∅, []⟩
  | step (s t : ObsState) : ObsReachable segCount s → ObsStep segCount s t →
      ObsReachable segCount t

/-- State used by the witness of the claim C4 theorem: its segment table
comes from the segmenter on a one-element collection and its header has a
nonzero height. -/
def c4State : EngineState ℕ :=
  { renderList := [VirtualListSegment.real [7]]
    segmentList := getSegmentList [7] 2
    subPageMap := fun _ => none
    headerHeight := 5
    guessItemHeight := 50
    isCompleted := true }

/-- Collaborator behaviour whose scroll-view query succeeds with a large
viewport at offset `0`; used by witnesses. -/
def okOracle : QueryOracle :=
  { scrollViewInfo := .ok ⟨2000, 5000, 0⟩
    elementExists := fun _ => false
    elementExistsAfterJump := fun _ => false
    scrollToElementOk := fun _ => false
    scrollToElementAfterJumpOk := fun _ => false
    scrollViewNodeAvailable := true }

/-- Collaborator behaviour whose scroll-view query rejects and whose
element checks time out (resolve `false`); used by witnesses. -/
def failOracle : QueryOracle :=
  { scrollViewInfo := .error ()
    elementExists := fun _ => false
    elementExistsAfterJump := fun _ => false
    scrollToElementOk := fun _ => false
    scrollToElementAfterJumpOk := fun _ => false
    scrollViewNodeAvailable := false }

/-- Height added by the `k`-th skipped page when walking `rl` against
`segs` with page indices offset by `pageIdx`. -/
def skipAt {α : Type} (m : ℕ → Option ISubPage) (guess : ℚ)
    (rl : List (VirtualListSegment α)) (segs : List (List α)) (pageIdx k : ℕ) : ℚ :=
  skipContribution m guess (rl.getD k (VirtualListSegment.placeholder 0)) (pageIdx + k)
    (segs.getD k []).length

theorem jsOr_congr (x : ℚ) {a b : ℚ} (h : a = b) : jsOr x a = jsOr x b := by
  rw [h]

theorem le_ceilDiv_mul (len n : ℕ) (hn : 1 ≤ n) : len ≤ (len + n - 1) / n * n := by
  have h1 := Nat.div_add_mod (len + n - 1) n
  have h2 := Nat.mod_lt (len + n - 1) (show 0 < n by omega)
  rw [Nat.mul_comm]
  omega

theorem range_chunk_flatten {α : Type} (l : List α) (n : ℕ) :
    ∀ k : ℕ, ((List.range k).map fun i => (l.drop (i * n)).take n).flatten = l.take (k * n) := by
  intro k
  induction k with
  | zero => simp
  | succ k ih =>
    rw [List.range_succ, List.map_append, List.flatten_append, ih]
    simp only [List.map_cons, List.map_nil, List.flatten_cons, List.flatten_nil,
      List.append_nil]
    rw [Nat.succ_mul, List.take_add]

/-- C1: for every non-empty list and every segment size at least one,
concatenating in order the segments produced by `getSegmentList` yields
the original list, element for element and in length. -/
theorem getSegmentList_flatten {α : Type} (l : List α) (n : ℕ)
    (hl : l ≠ []) (hn : 1 ≤ n) : (getSegmentList l n).flatten = l := by
  have hlen : l.length ≠ 0 := by
    simpa using fun h => hl (List.length_eq_zero.mp h)
  unfold getSegmentList
  rw [if_neg hlen, if_neg (by omega : ¬ n = 0)]
  rw [range_chunk_flatten l n ((l.length + n - 1) / n)]
  exact List.take_of_length_le (le_ceilDiv_mul l.length n hn)

theorem getSegmentList_flatten_witness :
    ([0, 1, 2] : List ℕ) ≠ [] ∧ 1 ≤ 2 ∧ (getSegmentList [0, 1, 2] 2).flatten = [0, 1, 2] :=
  ⟨by decide, by decide, getSegmentList_flatten [0, 1, 2] 2 (by decide) (by decide)⟩

/-- C5: for every collection of length `L`, choosing `segmentNum = "smart"`
resolves the per-segment size to `max(10, floor(sqrt(L)))` (floor of the
real square root), and `createSegmentList` hands exactly that size to the
segmenter. -/
theorem resolveSegmentNum_smart {α : Type} (l : List α) :
    resolveSegmentNum SegmentNumType.smart l.length
        = max 10 (Nat.floor (Real.sqrt (l.length : ℝ))) ∧
      createSegmentList l SegmentNumType.smart getSegmentList
        = getSegmentList l (max 10 (Nat.floor (Real.sqrt (l.length : ℝ)))) := by
  have h : Nat.floor (Real.sqrt (l.length : ℝ)) = Nat.sqrt l.length :=
    Real.nat_floor_real_sqrt_eq_nat_sqrt
  constructor
  · rw [h]; rfl
  · rw [h]; rfl

/-- C10: for every negative index, `getItemScrollTop` returns exactly
`{height: 0, scrollTop: 0, rendered: false, pageIndex: 0}`; in particular
its `scrollTop` is `0`, not the header height. -/
theorem getItemScrollTop_negative {α : Type} (s : EngineState α) (index : ℤ)
    (h : index < 0) : getItemScrollTop s index = ⟨0, 0, false, 0⟩ := by
  unfold getItemScrollTop
  rw [if_pos h]

theorem getItemScrollTop_negative_witness :
    (-1 : ℤ) < 0 ∧ getItemScrollTop cexState (-1) = ⟨0, 0, false, 0⟩ :=
  ⟨by decide, getItemScrollTop_negative cexState (-1) (by decide)⟩

theorem segPrefixLen_zero {α : Type} (segs : List (List α)) : segPrefixLen segs 0 = 0 := by
  simp [segPrefixLen]

theorem segPrefixLen_cons {α : Type} (sd : List α) (sr : List (List α)) (p : ℕ) :
    segPrefixLen (sd :: sr) (p + 1) = sd.length + segPrefixLen sr p := by
  simp [segPrefixLen]

theorem skipAt_cons_succ {α : Type} (m : ℕ → Option ISubPage) (guess : ℚ)
    (page0 : VirtualListSegment α) (rest : List (VirtualListSegment α))
    (sd0 : List α) (sr : List (List α)) (pageIdx k : ℕ) :
    skipAt m guess (page0 :: rest) (sd0 :: sr) pageIdx (k + 1)
      = skipAt m guess rest sr (pageIdx + 1) k := by
  simp only [skipAt, List.getD_cons_succ]
  congr 1
  omega

theorem skipAt_cons_zero {α : Type} (m : ℕ → Option ISubPage) (guess : ℚ)
    (page0 : VirtualListSegment α) (rest : List (VirtualListSegment α))
    (sd0 : List α) (sr : List (List α)) (pageIdx : ℕ) :
    skipAt m guess (page0 :: rest) (sd0 :: sr) pageIdx 0
      = skipContribution m guess page0 pageIdx sd0.length := by
  simp [skipAt]

/-- Characterization of the page walk: when the query index falls inside
page `p`, the walk skips the first `p` pages, accumulating exactly their
contributions, and stops on page `p` with in-page position
`q - (curIdx + segPrefixLen segs p)`. -/
theorem getItemScrollTopLoop_land {α : Type} (guess : ℚ) (m : ℕ → Option ISubPage) :
    ∀ (p : ℕ) (rl : List (VirtualListSegment α)) (segs : List (List α))
      (page : VirtualListSegment α) (sd : List α) (pageIdx curIdx segIdx : ℕ) (st : ℚ)
      (q : ℕ),
      rl[p]? = some page → segs[p]? = some sd →
      curIdx + segPrefixLen segs p ≤ q → q < curIdx + segPrefixLen segs p + sd.length →
      getItemScrollTopLoop guess m q rl segs pageIdx curIdx st segIdx =
        (landHeight page (m (pageIdx + p)) guess (q - (curIdx + segPrefixLen segs p)),
         st + (∑ k ∈ Finset.range p, skipAt m guess rl segs pageIdx k)
           + landOffset page (m (pageIdx + p)) guess (q - (curIdx + segPrefixLen segs p)),
         landRendered page, segIdx + p) := by
  intro p
  induction p with
  | zero =>
    intro rl segs page sd pageIdx curIdx segIdx st q hrl hsg hlo hhi
    match rl, segs with
    | [], _ => simp at hrl
    | _ :: _, [] => simp at hsg
    | page0 :: rest, sd0 :: sr =>
      simp only [List.getElem?_cons_zero, Option.some.injEq] at hrl hsg
      subst hrl hsg
      rw [segPrefixLen_zero] at hlo hhi
      simp only [getItemScrollTopLoop]
      rw [if_neg (by omega : ¬ curIdx + sd0.length ≤ q)]
      simp [segPrefixLen_zero]
  | succ k ih =>
    intro rl segs page sd pageIdx curIdx segIdx st q hrl hsg hlo hhi
    match rl, segs with
    | [], _ => simp at hrl
    | _ :: _, [] => simp at hsg
    | page0 :: rest, sd0 :: sr =>
      simp only [List.getElem?_cons_succ] at hrl hsg
      rw [segPrefixLen_cons] at hlo hhi
      simp only [getItemScrollTopLoop]
      rw [if_pos (by omega : curIdx + sd0.length ≤ q)]
      rw [ih rest sr page sd (pageIdx + 1) (curIdx + sd0.length) (segIdx + 1)
        (st + skipContribution m guess page0 pageIdx sd0.length) q hrl hsg
        (by omega) (by omega)]
      have hidx : pageIdx + 1 + k = pageIdx + (k + 1) := by omega
      have hcur : curIdx + sd0.length + segPrefixLen sr k
          = curIdx + (sd0.length + segPrefixLen sr k) := by omega
      have hseg : segIdx + 1 + k = segIdx + (k + 1) := by omega
      have hsum : st + skipContribution m guess page0 pageIdx sd0.length
            + (∑ j ∈ Finset.range k, skipAt m guess rest sr (pageIdx + 1) j)
          = st + ∑ j ∈ Finset.range (k + 1), skipAt m guess (page0 :: rest) (sd0 :: sr) pageIdx j := by
        rw [Finset.sum_range_succ']
        rw [skipAt_cons_zero]
        have : ∀ j ∈ Finset.range k,
            skipAt m guess (page0 :: rest) (sd0 :: sr) pageIdx (j + 1)
              = skipAt m guess rest sr (pageIdx + 1) j := by
          intro j _
          exact skipAt_cons_succ m guess page0 rest sd0 sr pageIdx j
        rw [Finset.sum_congr rfl this]
        ring
      rw [hidx, hcur, hseg, hsum, segPrefixLen_cons]

theorem sum_take_eq_sum_range (l : List ℚ) (n : ℕ) (hn : n ≤ l.length) :
    (l.take n).sum = ∑ k ∈ Finset.range n, l.getD k 0 := by
  induction n with
  | zero => simp
  | succ n ih =>
    have hn' : n < l.length := by omega
    rw [List.take_succ, List.sum_append, ih (by omega), Finset.sum_range_succ]
    rw [List.getElem?_eq_getElem hn', List.getD_eq_getElem l 0 hn']
    simp

theorem effItemHeight_nonneg {α : Type} (page : VirtualListSegment α)
    (pageData? : Option ISubPage) (guess : ℚ) (k : ℕ) (hg : 0 ≤ guess)
    (hitems : ∀ x ∈ Option.elim pageData? [] ISubPage.items, 0 ≤ x) :
    0 ≤ effItemHeight page pageData? guess k := by
  match page, pageData? with
  | .placeholder _, _ => exact hg
  | .real _, none => exact hg
  | .real _, some pageData =>
    simp only [effItemHeight]
    by_cases hk : k < pageData.items.length
    · rw [if_pos hk, List.getD_eq_getElem _ 0 hk]
      exact hitems _ (List.getElem_mem hk)
    · rw [if_neg hk]; exact hg

theorem landOffset_diff {α : Type} (page : VirtualListSegment α)
    (pageData? : Option ISubPage) (guess : ℚ) (posI posJ : ℕ) (hle : posI ≤ posJ)
    (hcover : coverOK page pageData? posI posJ) :
    landOffset page pageData? guess posJ
      = landOffset page pageData? guess posI
        + ∑ k ∈ Finset.Ico posI posJ, effItemHeight page pageData? guess k := by
  have hconst : guess * (posJ : ℚ) = guess * (posI : ℚ)
      + ∑ _k ∈ Finset.Ico posI posJ, guess := by
    rw [Finset.sum_const, Nat.card_Ico, nsmul_eq_mul, Nat.cast_sub hle]
    ring
  match page, pageData? with
  | .placeholder _, _ => simpa [landOffset, effItemHeight] using hconst
  | .real _, none => simpa [landOffset, effItemHeight] using hconst
  | .real _, some pageData =>
    rcases (hcover : pageData.items.length ≤ posI ∨ posJ < pageData.items.length) with
      hshort | hcov
    · have hI : ¬ posI < pageData.items.length := by omega
      have hJ : ¬ posJ < pageData.items.length := by omega
      simp only [landOffset, effItemHeight, if_neg hI, if_neg hJ]
      have : ∀ k ∈ Finset.Ico posI posJ,
          (if k < pageData.items.length then pageData.items.getD k 0 else guess) = guess := by
        intro k hk
        rw [Finset.mem_Ico] at hk
        rw [if_neg (by omega)]
      rw [Finset.sum_congr rfl this]
      exact hconst
    · have hI : posI < pageData.items.length := by omega
      simp only [landOffset, effItemHeight, if_pos hI, if_pos hcov]
      rw [sum_take_eq_sum_range _ _ (by omega), sum_take_eq_sum_range _ _ (by omega)]
      have : ∀ k ∈ Finset.Ico posI posJ,
          (if k < pageData.items.length then pageData.items.getD k 0 else guess)
            = pageData.items.getD k 0 := by
        intro k hk
        rw [Finset.mem_Ico] at hk
        rw [if_pos (by omega)]
      rw [Finset.sum_congr rfl this, Finset.sum_Ico_eq_sub _ hle]
      ring

/-- C2 (counterexample): in the concrete state `cexState` the items at
indices 1 and 2 lie in the same (sole, rendered) segment, the item between
them has recorded nonzero height 1000, yet the located offset of index 2
(which falls back to `guessItemHeight * 2 = 100` because the measured
item list stops at position 2) is strictly below the located offset of
index 1 (the measured `1000`), refuting the claimed monotonicity. -/
theorem getItemScrollTop_mono_cex :
    (getItemScrollTop cexState 2).scrollTop < (getItemScrollTop cexState 1).scrollTop := by
  norm_num [getItemScrollTop, getItemScrollTopLoop, cexState, landOffset, landHeight,
    landRendered, skipContribution, jsOr, Int.toNat]

/-- C2 (amended): for every engine state whose recorded item heights and
guess height are nonnegative, and all indices `i < j` in the same segment
`p`, provided the containing page's measured item list does not end
strictly between the two in-segment positions (`coverOK`),
`getItemScrollTop j` locates at or after `getItemScrollTop i`, strictly
after when some item among `i .. j-1` contributes a nonzero height. -/
theorem getItemScrollTop_mono_in_segment {α : Type} (s : EngineState α) (p i j : ℕ)
    (page : VirtualListSegment α) (sd : List α)
    (hrl : s.renderList[p]? = some page) (hsg : s.segmentList[p]? = some sd)
    (hlo : segPrefixLen s.segmentList p ≤ i) (hij : i < j)
    (hhi : j < segPrefixLen s.segmentList p + sd.length)
    (hg : 0 ≤ s.guessItemHeight)
    (hitems : ∀ x ∈ Option.elim (s.subPageMap p) [] ISubPage.items, 0 ≤ x)
    (hcover : coverOK page (s.subPageMap p) (i - segPrefixLen s.segmentList p)
      (j - segPrefixLen s.segmentList p)) :
    (getItemScrollTop s (i : ℤ)).scrollTop ≤ (getItemScrollTop s (j : ℤ)).scrollTop ∧
      ((∃ k, i - segPrefixLen s.segmentList p ≤ k ∧ k < j - segPrefixLen s.segmentList p ∧
          effItemHeight page (s.subPageMap p) s.guessItemHeight k ≠ 0) →
        (getItemScrollTop s (i : ℤ)).scrollTop < (getItemScrollTop s (j : ℤ)).scrollTop) := by
  have key : ∀ q : ℕ, segPrefixLen s.segmentList p ≤ q →
      q < segPrefixLen s.segmentList p + sd.length →
      (getItemScrollTop s (q : ℤ)).scrollTop = s.headerHeight
        + (∑ k ∈ Finset.range p, skipAt s.subPageMap s.guessItemHeight s.renderList s.segmentList 0 k)
        + landOffset page (s.subPageMap p) s.guessItemHeight (q - segPrefixLen s.segmentList p) := by
    intro q h1 h2
    have hq0 : ¬ ((q : ℤ) < 0) := by omega
    unfold getItemScrollTop
    rw [if_neg hq0]
    dsimp only
    rw [Int.toNat_natCast]
    rw [getItemScrollTopLoop_land s.guessItemHeight s.subPageMap p s.renderList s.segmentList
      page sd 0 0 0 s.headerHeight q hrl hsg (by omega) (by omega)]
    simp only [Nat.zero_add]
  rw [key i hlo (by omega), key j (by omega) hhi]
  rw [landOffset_diff page (s.subPageMap p) s.guessItemHeight
    (i - segPrefixLen s.segmentList p) (j - segPrefixLen s.segmentList p) (by omega) hcover]
  have hnn : (0 : ℚ) ≤ ∑ k ∈ Finset.Ico (i - segPrefixLen s.segmentList p)
      (j - segPrefixLen s.segmentList p),
      effItemHeight page (s.subPageMap p) s.guessItemHeight k :=
    Finset.sum_nonneg fun k _ => effItemHeight_nonneg page _ _ k hg hitems
  constructor
  · linarith
  · rintro ⟨k, hk1, hk2, hk3⟩
    have hkpos : 0 < effItemHeight page (s.subPageMap p) s.guessItemHeight k :=
      lt_of_le_of_ne (effItemHeight_nonneg page _ _ k hg hitems) (Ne.symm hk3)
    have hpos : (0 : ℚ) < ∑ k ∈ Finset.Ico (i - segPrefixLen s.segmentList p)
        (j - segPrefixLen s.segmentList p),
        effItemHeight page (s.subPageMap p) s.guessItemHeight k :=
      Finset.sum_pos' (fun k _ => effItemHeight_nonneg page _ _ k hg hitems)
        ⟨k, Finset.mem_Ico.mpr ⟨hk1, hk2⟩, hkpos⟩
    linarith

theorem getItemScrollTop_mono_in_segment_witness :
    segPrefixLen cexState.segmentList 0 ≤ 0 ∧ (0 : ℕ) < 1 ∧
      (getItemScrollTop cexState (0 : ℤ)).scrollTop
        < (getItemScrollTop cexState (1 : ℤ)).scrollTop := by
  refine ⟨by decide, by decide, ?_⟩
  have h := getItemScrollTop_mono_in_segment cexState 0 0 1
    (VirtualListSegment.real [0, 1, 2]) [0, 1, 2]
    (by decide) (by decide) (by decide) (by decide) (by decide)
    (by norm_num [cexState])
    (by
      intro x hx
      simp only [cexState, Option.elim] at hx
      norm_num at hx
      rw [hx]
      norm_num)
    (Or.inr (by decide))
  exact h.2 ⟨0, by decide, by decide, by norm_num [effItemHeight, cexState]⟩

theorem landOffset_zero {α : Type} (page : VirtualListSegment α)
    (pageData? : Option ISubPage) (guess : ℚ) :
    landOffset page pageData? guess 0 = 0 := by
  match page, pageData? with
  | .placeholder _, _ => simp [landOffset]
  | .real _, none => simp [landOffset]
  | .real _, some pageData =>
    simp only [landOffset]
    split <;> simp

theorem getSegmentList_head_ne_nil {α : Type} (l : List α) (n : ℕ) (hl : l ≠ [])
    (sd : List α) (rest : List (List α)) (h : getSegmentList l n = sd :: rest) :
    sd ≠ [] := by
  have hlen : l.length ≠ 0 := by
    simpa using fun hz => hl (List.length_eq_zero.mp hz)
  unfold getSegmentList at h
  rw [if_neg hlen] at h
  by_cases hn : n = 0
  · rw [if_pos hn] at h
    injection h with h1 _
    rw [← h1]
    exact hl
  · rw [if_neg hn] at h
    have htp : 1 ≤ (l.length + n - 1) / n := by
      rw [Nat.le_div_iff_mul_le (by omega : 0 < n)]
      omega
    obtain ⟨k, hk⟩ : ∃ k, (l.length + n - 1) / n = k + 1 :=
      ⟨(l.length + n - 1) / n - 1, by omega⟩
    dsimp only at h
    rw [hk, List.range_succ_eq_map, List.map_cons] at h
    injection h with h1 _
    rw [← h1]
    simp only [Nat.zero_mul, List.drop_zero]
    intro hnil
    rcases List.take_eq_nil_iff.mp hnil with h2 | h2
    · exact hn h2
    · exact hl h2

/-- C4: for every engine state whose segment table was produced by the
segmenter on a non-empty collection, `getItemScrollTop 0` returns a
`scrollTop` equal to exactly the header height: no segment or item height
is added for the first item. -/
theorem getItemScrollTop_zero_header {α : Type} (s : EngineState α) (l : List α) (n : ℕ)
    (hl : l ≠ []) (hseg : s.segmentList = getSegmentList l n) :
    (getItemScrollTop s 0).scrollTop = s.headerHeight := by
  unfold getItemScrollTop
  rw [if_neg (by omega : ¬ (0 : ℤ) < 0)]
  dsimp only
  rw [show (0 : ℤ).toNat = 0 from rfl]
  cases hrl : s.renderList with
  | nil => simp [getItemScrollTopLoop]
  | cons page restPages =>
    cases hsg : s.segmentList with
    | nil => simp [getItemScrollTopLoop]
    | cons sd restSegs =>
      have hsd : sd ≠ [] :=
        getSegmentList_head_ne_nil l n hl sd restSegs (hseg ▸ hsg)
      have hlen : 1 ≤ sd.length := List.length_pos.mpr hsd
      simp only [getItemScrollTopLoop]
      rw [if_neg (by omega : ¬ 0 + sd.length ≤ 0)]
      simp [landOffset_zero]

theorem getItemScrollTop_zero_header_witness :
    ([7] : List ℕ) ≠ [] ∧ (getItemScrollTop c4State 0).scrollTop = c4State.headerHeight :=
  ⟨by decide, getItemScrollTop_zero_header c4State [7] 2 (by decide) rfl⟩

theorem getItemScrollTopLoop_set_real {α : Type} (guess : ℚ) (m : ℕ → Option ISubPage)
    (q : ℕ) :
    ∀ (rl : List (VirtualListSegment α)) (j : ℕ) (segs : List (List α))
      (xs ys : List α) (pageIdx curIdx segIdx : ℕ) (st : ℚ),
      rl[j]? = some (VirtualListSegment.real xs) →
      getItemScrollTopLoop guess m q (rl.set j (VirtualListSegment.real ys)) segs
          pageIdx curIdx st segIdx
        = getItemScrollTopLoop guess m q rl segs pageIdx curIdx st segIdx := by
  intro rl
  induction rl with
  | nil => intro j segs xs ys pageIdx curIdx segIdx st hj; simp at hj
  | cons page rest ih =>
    intro j segs xs ys pageIdx curIdx segIdx st hj
    cases j with
    | zero =>
      simp only [List.getElem?_cons_zero, Option.some.injEq] at hj
      subst hj
      cases segs with
      | nil => rfl
      | cons sd sr => rfl
    | succ j =>
      simp only [List.getElem?_cons_succ] at hj
      cases segs with
      | nil => rfl
      | cons sd sr =>
        simp only [List.set_cons_succ, getItemScrollTopLoop]
        split
        · exact ih j sr xs ys (pageIdx + 1) (curIdx + sd.length) (segIdx + 1) _ hj
        · rfl

theorem getItemScrollTopLoop_set_placeholder {α : Type} (guess : ℚ)
    (m : ℕ → Option ISubPage) (q : ℕ) :
    ∀ (rl : List (VirtualListSegment α)) (j : ℕ) (segs : List (List α))
      (xs : List α) (ph : ℚ) (pageIdx curIdx segIdx : ℕ) (st : ℚ),
      rl[j]? = some (VirtualListSegment.real xs) →
      ph = skipContribution m guess (VirtualListSegment.real xs) (pageIdx + j)
        (segs.getD j []).length →
      curIdx + segPrefixLen segs (j + 1) ≤ q →
      getItemScrollTopLoop guess m q (rl.set j (VirtualListSegment.placeholder ph)) segs
          pageIdx curIdx st segIdx
        = getItemScrollTopLoop guess m q rl segs pageIdx curIdx st segIdx := by
  intro rl
  induction rl with
  | nil => intro j segs xs ph pageIdx curIdx segIdx st hj; simp at hj
  | cons page rest ih =>
    intro j segs xs ph pageIdx curIdx segIdx st hj hph hq
    cases j with
    | zero =>
      simp only [List.getElem?_cons_zero, Option.some.injEq] at hj
      subst hj
      cases segs with
      | nil => rfl
      | cons sd sr =>
        rw [segPrefixLen_cons, segPrefixLen_zero] at hq
        simp only [List.getD_cons_zero, Nat.add_zero] at hph
        simp only [List.set_cons_zero, getItemScrollTopLoop]
        rw [if_pos (by omega : curIdx + sd.length ≤ q),
          if_pos (by omega : curIdx + sd.length ≤ q)]
        have hcontrib : @skipContribution α m guess (VirtualListSegment.placeholder ph)
            pageIdx sd.length
            = @skipContribution α m guess (VirtualListSegment.real xs) pageIdx sd.length :=
          hph
        rw [hcontrib]
    | succ j =>
      simp only [List.getElem?_cons_succ] at hj
      cases segs with
      | nil => rfl
      | cons sd sr =>
        rw [segPrefixLen_cons] at hq
        simp only [List.getD_cons_succ] at hph
        simp only [List.set_cons_succ, getItemScrollTopLoop]
        rw [if_pos (by omega : curIdx + sd.length ≤ q),
          if_pos (by omega : curIdx + sd.length ≤ q)]
        exact ih j sr xs ph (pageIdx + 1) (curIdx + sd.length) (segIdx + 1) _ hj
          (by rw [hph]; congr 1; omega) (by omega)

theorem observerPlaceholderHeight_eq_skip {α : Type} (s : EngineState α) (p : ℕ)
    (xs : List α) :
    observerPlaceholderHeight s p
      = skipContribution s.subPageMap s.guessItemHeight (VirtualListSegment.real xs)
          (0 + p) (s.segmentList.getD p []).length := by
  cases hmp : s.subPageMap p with
  | none =>
    simp only [observerPlaceholderHeight, skipContribution, Nat.zero_add, hmp]
    ring
  | some pageData =>
    simp only [observerPlaceholderHeight, skipContribution, Nat.zero_add, hmp]
    exact jsOr_congr _ (mul_comm _ _)

/-- C6: swapping a segment whose entry holds real content to a placeholder
(as the observer's leave branch does) and later back to rendered, with no
new measurement in between, leaves every position-calculation answer
unchanged; moreover, already after the swap to the placeholder, every item
past the swapped segment locates exactly as before, because the
placeholder takes the best known height, which is the height the rendered
variant contributes. -/
theorem swapRoundtrip_stable {α : Type} (s : EngineState α) (p : ℕ) (xs : List α)
    (hp : s.renderList[p]? = some (VirtualListSegment.real xs)) :
    (∀ q : ℤ, getItemScrollTop (swapToRendered (swapToPlaceholder s p) p) q
        = getItemScrollTop s q) ∧
      (∀ q : ℕ, segPrefixLen s.segmentList (p + 1) ≤ q →
        getItemScrollTop (swapToPlaceholder s p) (q : ℤ) = getItemScrollTop s (q : ℤ)) := by
  have hplen : p < s.renderList.length := by
    by_contra hc
    rw [List.getElem?_eq_none (by omega)] at hp
    cases hp
  have hspl : swapToPlaceholder s p
      = { s with renderList := (s.renderList.set p
          (VirtualListSegment.placeholder (observerPlaceholderHeight s p))) } := by
    unfold swapToPlaceholder
    rw [hp]
  have hswr : swapToRendered (swapToPlaceholder s p) p
      = { s with renderList := (s.renderList.set p
          (VirtualListSegment.real (s.segmentList.getD p []))) } := by
    rw [hspl]
    unfold swapToRendered
    simp only [List.getElem?_set_self hplen]
    rw [List.set_set]
  constructor
  · intro q
    rw [hswr]
    unfold getItemScrollTop
    by_cases hq : q < 0
    · rw [if_pos hq, if_pos hq]
    · rw [if_neg hq, if_neg hq]
      dsimp only
      rw [getItemScrollTopLoop_set_real s.guessItemHeight s.subPageMap q.toNat
        s.renderList p s.segmentList xs (s.segmentList.getD p []) 0 0 0 s.headerHeight hp]
      rw [List.length_set]
  · intro q hq
    rw [hspl]
    unfold getItemScrollTop
    rw [if_neg (by omega : ¬ ((q : ℤ) < 0)), if_neg (by omega : ¬ ((q : ℤ) < 0))]
    dsimp only
    rw [Int.toNat_natCast]
    rw [getItemScrollTopLoop_set_placeholder s.guessItemHeight s.subPageMap q
      s.renderList p s.segmentList xs (observerPlaceholderHeight s p) 0 0 0 s.headerHeight
      hp (observerPlaceholderHeight_eq_skip s p xs) (by omega)]
    rw [List.length_set]

theorem swapRoundtrip_stable_witness :
    cexState.renderList[0]? = some (VirtualListSegment.real [0, 1, 2]) ∧
      getItemScrollTop (swapToRendered (swapToPlaceholder cexState 0) 0) 0
        = getItemScrollTop cexState 0 :=
  ⟨by decide, (swapRoundtrip_stable cexState 0 [0, 1, 2] (by decide)).1 0⟩

/-- C7: for every item whose located span is already fully inside the
current viewport, `scrollIntoView` issues no command to the scroll
container and reports success. -/
theorem scrollIntoView_visible_noop {α : Type} (o : QueryOracle) (s : EngineState α)
    (index : ℤ) (offsetTop : ℚ) (info : ScrollViewInfo)
    (hinfo : o.scrollViewInfo = .ok info)
    (h1 : info.scrollTop ≤ (getItemScrollTop s index).scrollTop)
    (h2 : (getItemScrollTop s index).scrollTop + (getItemScrollTop s index).height
      ≤ info.scrollTop + info.height) :
    scrollIntoView o s index offsetTop = (true, []) := by
  unfold scrollIntoView scrollIntoViewBody
  rw [hinfo]
  simp only []
  rw [if_pos ⟨h1, h2⟩]

theorem scrollIntoView_visible_noop_witness :
    okOracle.scrollViewInfo = .ok ⟨2000, 5000, 0⟩ ∧
      scrollIntoView okOracle cexState 0 0 = (true, []) :=
  ⟨rfl, scrollIntoView_visible_noop okOracle cexState 0 0 ⟨2000, 5000, 0⟩ rfl
    (by norm_num [getItemScrollTop, getItemScrollTopLoop, cexState, landOffset, landHeight,
      landRendered, skipContribution, jsOr, Int.toNat])
    (by norm_num [getItemScrollTop, getItemScrollTopLoop, cexState, landOffset, landHeight,
      landRendered, skipContribution, jsOr, Int.toNat])⟩

/-- C8: `scrollTo` always resolves to a boolean: a rejection of the body is
turned into the result `false` by the surrounding catch (first conjunct);
in particular, when the scroll-view geometry query rejects and the target
element is absent, the result is `false` (second conjunct), and likewise
when the scroll node is missing (third conjunct). No exception escapes. -/
theorem scrollTo_failsafe {α : Type} (o : QueryOracle) (s : EngineState α) (index : ℤ)
    (offsetTop : ℚ) :
    (∀ e, scrollToBody o s index offsetTop = .error e →
      scrollTo o s index offsetTop = (false, [])) ∧
      (o.scrollViewInfo = .error () →
        o.elementExists (Selector.item (findPage s.segmentList index).1
          (findPage s.segmentList index).2) = false →
        (scrollTo o s index offsetTop).1 = false) ∧
      (o.scrollViewNodeAvailable = false →
        o.elementExists (Selector.item (findPage s.segmentList index).1
          (findPage s.segmentList index).2) = false →
        (scrollTo o s index offsetTop).1 = false) := by
  refine ⟨?_, ?_, ?_⟩
  · intro e he
    unfold scrollTo
    rcases hC : s.isCompleted with _ | _
    · simp [hC]
    · simp [hC, he]
  · intro hfail hex
    unfold scrollTo scrollToBody
    rcases hC : s.isCompleted with _ | _
    · simp [hC]
    · by_cases hE : 0 ≤ calculateEstimatedScrollTop s index
        (findPage s.segmentList index).1 (findPage s.segmentList index).2
      · simp [hC, hex, hfail, hE]
      · simp [hC, hex, hfail, hE]
  · intro hnode hex
    unfold scrollTo scrollToBody
    rcases hC : s.isCompleted with _ | _
    · simp [hC]
    · by_cases hE : 0 ≤ calculateEstimatedScrollTop s index
        (findPage s.segmentList index).1 (findPage s.segmentList index).2
      · rcases hI : o.scrollViewInfo with e | vlInfo
        · simp [hC, hex, hE, hI]
        · simp [hC, hex, hE, hI, hnode]
      · simp [hC, hex, hE]

theorem scrollTo_failsafe_witness :
    failOracle.scrollViewInfo = .error () ∧
      (scrollTo failOracle cexState 0 0).1 = false :=
  ⟨rfl, (scrollTo_failsafe failOracle cexState 0 0).2.1 rfl rfl⟩

/-- C9: in every reachable state of the watcher-installation machine, a
segment index is present in at most one of the active-watcher set
(`observersRef`) and the pending-creation set (`observerCreatingRef`)
(first conjunct), and an install request for a segment already in either
set leaves both sets untouched and starts no continuation (second
conjunct). -/
theorem watcher_sets_disjoint (segCount : ℕ) :
    (∀ s : ObsState, ObsReachable segCount s → Disjoint s.observers s.creating) ∧
      (∀ (observers creating : Finset ℕ) (index : ℕ),
        index ∈ observers ∨ index ∈ creating →
        runInstallStart segCount observers creating index
          = ((observers, creating), false)) := by
  constructor
  · intro s hs
    induction hs with
    | init => simp
    | step s t hreach hstep ih =>
      cases hstep with
      | spawn s index => exact ih
      | runStart obs cr l1 l2 index retry =>
        dsimp only at ih ⊢
        unfold runInstallStart
        by_cases hmem : index ∈ obs ∨ index ∈ cr
        · simp only [if_pos hmem]
          exact ih
        · by_cases hrange : segCount ≤ index
          · simp only [if_neg hmem, if_pos hrange]
            exact ih
          · simp only [if_neg hmem, if_neg hrange]
            rw [Finset.disjoint_insert_right]
            exact ⟨fun h => hmem (Or.inl h), ih⟩
      | checkAbsentRetry obs cr l1 l2 index retry hr =>
        dsimp only at ih ⊢
        exact ih.mono_right (Finset.erase_subset ..)
      | checkAbsentGiveUp obs cr l1 l2 index retry hr =>
        dsimp only at ih ⊢
        exact ih.mono_right (Finset.erase_subset ..)
      | observeOk obs cr l1 l2 index retry =>
        dsimp only at ih ⊢
        rw [Finset.disjoint_insert_left]
        exact ⟨Finset.not_mem_erase index cr, ih.mono_right (Finset.erase_subset ..)⟩
      | observeErr obs cr l1 l2 index retry =>
        dsimp only at ih ⊢
        exact ih.mono_right (Finset.erase_subset ..)
      | timerFire obs cr l1 l2 index retry =>
        exact ih
      | clear s =>
        simp
  · intro obs cr index hmem
    unfold runInstallStart
    rw [if_pos hmem]

theorem watcher_sets_disjoint_witness :
    Disjoint (ObsState.mk ∅ ∅ []).observers (ObsState.mk ∅ ∅ []).creating ∧
      runInstallStart 5 {0} ∅ 0 = (({0}, ∅), false) :=
  ⟨(watcher_sets_disjoint 5).1 (ObsState.mk ∅ ∅ []) ObsReachable.init,
   (watcher_sets_disjoint 5).2 {0} ∅ 0 (Or.inl (by decide))⟩

theorem scenarioList_length : scenarioList.length = 10000 := by
  simp [scenarioList]

theorem scenario_resolve : resolveSegmentNum SegmentNumType.smart scenarioList.length = 100 := by
  rw [scenarioList_length]
  show max 10 (Nat.sqrt 10000) = 100
  norm_num

theorem scenarioSegments_eq :
    scenarioSegments
      = (List.range 100).map fun i => (scenarioList.drop (i * 100)).take 100 := by
  unfold scenarioSegments createSegmentList
  rw [scenario_resolve]
  unfold getSegmentList
  rw [scenarioList_length]
  norm_num

theorem scenarioSegments_length : scenarioSegments.length = 100 := by
  rw [scenarioSegments_eq]
  simp

theorem scenarioSeg_getD_length (k : ℕ) (hk : k < 100) :
    (scenarioSegments.getD k []).length = 100 := by
  rw [scenarioSegments_eq]
  rw [List.getD_eq_getElem _ _ (by simpa using hk)]
  rw [List.getElem_map]
  rw [List.getElem_range _ (by simpa using hk)]
  rw [List.length_take, List.length_drop, scenarioList_length]
  omega

theorem segPrefixLen_succ_getD {α : Type} (segs : List (List α)) (k : ℕ)
    (hk : k < segs.length) :
    segPrefixLen segs (k + 1) = segPrefixLen segs k + (segs.getD k []).length := by
  unfold segPrefixLen
  rw [List.take_succ, List.map_append, List.sum_append]
  rw [List.getElem?_eq_getElem hk]
  rw [List.getD_eq_getElem _ _ hk]
  simp

theorem scenarioPrefix2 : segPrefixLen scenarioSegments 2 = 200 := by
  have h1 : segPrefixLen scenarioSegments 2
      = segPrefixLen scenarioSegments 1 + (scenarioSegments.getD 1 []).length :=
    segPrefixLen_succ_getD scenarioSegments 1 (by rw [scenarioSegments_length]; omega)
  have h0 : segPrefixLen scenarioSegments 1
      = segPrefixLen scenarioSegments 0 + (scenarioSegments.getD 0 []).length :=
    segPrefixLen_succ_getD scenarioSegments 0 (by rw [scenarioSegments_length]; omega)
  rw [h1, h0, segPrefixLen_zero,
    scenarioSeg_getD_length 0 (by omega), scenarioSeg_getD_length 1 (by omega)]

theorem scenarioRenderList_eq :
    initRenderListSegments scenarioSegments (50 : ℚ) = (List.range 100).map fun i =>
      if i = 0 then VirtualListSegment.real (scenarioSegments.getD i [])
      else VirtualListSegment.placeholder (((scenarioSegments.getD i []).length : ℚ) * 50) := by
  unfold initRenderListSegments
  rw [scenarioSegments_length]

theorem scenarioRenderList_getElem2 :
    (initRenderListSegments scenarioSegments (50 : ℚ))[2]? = some (VirtualListSegment.placeholder
      (((scenarioSegments.getD 2 []).length : ℚ) * 50)) := by
  rw [scenarioRenderList_eq, List.getElem?_map, List.getElem?_range (by omega : 2 < 100)]
  rfl

theorem scenarioSegments_getElem2 :
    scenarioSegments[2]? = some ((scenarioList.drop 200).take 100) := by
  rw [scenarioSegments_eq, List.getElem?_map, List.getElem?_range (by omega : 2 < 100)]
  rfl

theorem scenarioRl_getD0 :
    (initRenderListSegments scenarioSegments (50 : ℚ)).getD 0 (VirtualListSegment.placeholder 0)
      = VirtualListSegment.real (scenarioSegments.getD 0 []) := by
  rw [scenarioRenderList_eq, List.getD_eq_getElem?_getD, List.getElem?_map,
    List.getElem?_range (by omega : 0 < 100)]
  rfl

theorem scenarioRl_getD1 :
    (initRenderListSegments scenarioSegments (50 : ℚ)).getD 1 (VirtualListSegment.placeholder 0)
      = VirtualListSegment.placeholder (((scenarioSegments.getD 1 []).length : ℚ) * 50) := by
  rw [scenarioRenderList_eq, List.getD_eq_getElem?_getD, List.getElem?_map,
    List.getElem?_range (by omega : 1 < 100)]
  rfl

theorem landHeight_placeholder {α : Type} (h : ℚ) (pageData? : Option ISubPage)
    (guess : ℚ) (pos : ℕ) :
    landHeight (VirtualListSegment.placeholder (α := α) h) pageData? guess pos = guess := rfl

theorem landOffset_placeholder {α : Type} (h : ℚ) (pageData? : Option ISubPage)
    (guess : ℚ) (pos : ℕ) :
    landOffset (VirtualListSegment.placeholder (α := α) h) pageData? guess pos
      = guess * pos := rfl

theorem landRendered_placeholder {α : Type} (h : ℚ) :
    landRendered (VirtualListSegment.placeholder (α := α) h) = false := rfl

theorem scenarioLoop_result :
    getItemScrollTopLoop (α := ℕ) 50 (fun _ => none) 250
      (initRenderListSegments scenarioSegments 50) scenarioSegments 0 0 0 0
      = (50, 12500, false, 2) := by
  have hsd : ((scenarioList.drop 200).take 100).length = 100 := by
    rw [List.length_take, List.length_drop, scenarioList_length]
    omega
  have hland := getItemScrollTopLoop_land (α := ℕ) 50 (fun _ => none) 2
    (initRenderListSegments scenarioSegments 50) scenarioSegments
    (VirtualListSegment.placeholder (((scenarioSegments.getD 2 []).length : ℚ) * 50))
    ((scenarioList.drop 200).take 100) 0 0 0 0 250
    scenarioRenderList_getElem2 scenarioSegments_getElem2
    (by rw [scenarioPrefix2]; omega) (by rw [scenarioPrefix2, hsd]; omega)
  rw [hland]
  have hsum : (∑ k ∈ Finset.range 2, skipAt (fun _ => none) 50
      (initRenderListSegments scenarioSegments 50) scenarioSegments 0 k) = 10000 := by
    rw [Finset.sum_range_succ, Finset.sum_range_succ, Finset.sum_range_zero]
    unfold skipAt
    rw [scenarioRl_getD0, scenarioRl_getD1]
    have hl0 : (scenarioSegments.getD 0 []).length = 100 :=
      scenarioSeg_getD_length 0 (by omega)
    have hl1 : (scenarioSegments.getD 1 []).length = 100 :=
      scenarioSeg_getD_length 1 (by omega)
    show 0 + skipContribution (fun _ => none) 50
        (VirtualListSegment.real (scenarioSegments.getD 0 []))
        (0 + 0) (scenarioSegments.getD 0 []).length
      + skipContribution (fun _ => none) 50
        (VirtualListSegment.placeholder (((scenarioSegments.getD 1 []).length : ℚ) * 50))
        (0 + 1) (scenarioSegments.getD 1 []).length = 10000
    unfold skipContribution
    rw [hl0, hl1]
    norm_num
  rw [hsum, scenarioPrefix2]
  rw [landHeight_placeholder, landOffset_placeholder, landRendered_placeholder]
  norm_num [Prod.ext_iff]

theorem scenarioState_guess : scenarioState.guessItemHeight = 50 := rfl

theorem scenarioState_map : scenarioState.subPageMap = fun _ => none := rfl

theorem scenarioState_header : scenarioState.headerHeight = 0 := rfl

theorem EngineState_renderList_mk {α : Type} (a : List (VirtualListSegment α))
    (b : List (List α)) (c : ℕ → Option ISubPage) (d e : ℚ) (f : Bool) :
    (@EngineState.mk α a b c d e f).renderList = a := rfl

theorem EngineState_segmentList_mk {α : Type} (a : List (VirtualListSegment α))
    (b : List (List α)) (c : ℕ → Option ISubPage) (d e : ℚ) (f : Bool) :
    (@EngineState.mk α a b c d e f).segmentList = b := rfl

theorem scenarioState_rl :
    scenarioState.renderList = initRenderListSegments scenarioSegments 50 := by
  unfold scenarioState
  exact EngineState_renderList_mk _ _ _ _ _ _

theorem scenarioState_sl : scenarioState.segmentList = scenarioSegments := by
  unfold scenarioState
  exact EngineState_segmentList_mk _ _ _ _ _ _

theorem getItemScrollTop_eval {α : Type} (s : EngineState α) (index : ℤ)
    (h0 : ¬ index < 0) (res : ℚ × ℚ × Bool × ℕ)
    (hloop : getItemScrollTopLoop s.guessItemHeight s.subPageMap index.toNat
        s.renderList s.segmentList 0 0 s.headerHeight 0 = res) :
    getItemScrollTop s index
      = ⟨res.1, res.2.1, res.2.2.1,
          min (res.2.2.2 : ℤ) ((s.renderList.length : ℤ) - 1)⟩ := by
  unfold getItemScrollTop
  rw [if_neg h0]
  dsimp only
  rw [hloop]

/-- C3: on a collection of 10,000 items with `guessItemHeight = 50`,
`segmentNum = "smart"`, header height `0` and no measurement recorded, the
segment size resolves to `100`, the segment count is `100`, and
`getItemScrollTop 250` answers `scrollTop = 250 * 50 = 12500` with
`rendered = false`. -/
theorem smart_scenario_locate :
    resolveSegmentNum SegmentNumType.smart scenarioList.length = 100 ∧
      scenarioSegments.length = 100 ∧
      (getItemScrollTop scenarioState 250).scrollTop = 12500 ∧
      (getItemScrollTop scenarioState 250).rendered = false := by
  have hloop : getItemScrollTopLoop scenarioState.guessItemHeight scenarioState.subPageMap
      (250 : ℤ).toNat scenarioState.renderList scenarioState.segmentList 0 0
      scenarioState.headerHeight 0 = (50, 12500, false, 2) := by
    rw [scenarioState_guess, scenarioState_map, scenarioState_rl, scenarioState_sl,
      scenarioState_header, show ((250 : ℤ).toNat) = 250 from rfl]
    exact scenarioLoop_result
  have h := getItemScrollTop_eval scenarioState 250 (by omega) (50, 12500, false, 2) hloop
  refine ⟨scenario_resolve, scenarioSegments_length, ?_, ?_⟩
  · rw [h]
  · rw [h]
